import Mathlib

/-!
Verification of the realastro storefront's cart/checkout state logic.

This file shallowly embeds the client-side cart store
(`apps/storefront/src/lib/stores/cart.ts`, concatenated into
`src/apps/storefront/src/lib/medusa.ts` in the source pack), the checkout
islands (`CheckoutForm`, `ShippingMethodSelector`, `PaymentForm`), the cart
island's quantity mutation handler (`Cart.tsx`), the search debouncer
(`Search.tsx`) and the `formatPrice` helper.

Modelling conventions:
- Durable client storage (`localStorage`) is an association list of
  string keys to string values; reads return the first binding.
  We model the browser environment where storage operations succeed
  (the code's `isBrowser`/try-catch guards are environment branches).
- JavaScript `string | null | undefined` fields become `Option String`;
  the JS truthiness of such a field is "is `some s` with `s ≠ \x22\x22`".
- Async calls that can throw are modelled by oracle functions returning
  an explicit failure/success result; a handler returns its resulting
  state together with the list of backend requests it issued.
- `Intl.NumberFormat` is abstracted as an opaque-to-the-theorem formatting
  parameter; monetary division by 100 is embedded over `ℚ`.
-/

namespace Storefront

/-- Browser `localStorage`, modelled as an association list from keys to
string values. The first binding for a key is its current value. -/
abbrev Storage : Type := List (String × String)

/-- Model of `localStorage.getItem(k)`. -/
def Storage.getItem (s : Storage) (k : String) : Option String :=
  match (List.find? (fun p => p.1 == k) s) with
  | some p => some p.2
  | none => none

/-- Model of `localStorage.setItem(k, v)`: the new binding shadows and
replaces any previous binding for `k`. -/
def Storage.setItem (s : Storage) (k v : String) : Storage :=
  (k, v) :: List.filter (fun p => !(p.1 == k)) s

/-- Model of `localStorage.removeItem(k)`. -/
def Storage.removeItem (s : Storage) (k : String) : Storage :=
  List.filter (fun p => !(p.1 == k)) s

/-- The constant `CART_ID_KEY` from `stores/cart.ts`. -/
def CART_ID_KEY : String := "medusa_cart_id"

/-- Truthiness of a JS `string | null | undefined` value. -/
def truthy : Option String → Bool
  | none => false
  | some s => !(s == "")

/-- Line item of a Medusa store cart, restricted to the fields the
verified code reads (`id`, `title`, `quantity`, `unit_price`). -/
structure LineItem where
  id : String
  title : String
  quantity : Int
  unit_price : Int
  deriving Repr, DecidableEq

/-- A Medusa `StoreCart`, restricted to the fields the verified code
reads. Optional fields mirror the TypeScript optional/nullable types. -/
structure StoreCart where
  id : String
  items : Option (List LineItem)
  total : Option Int
  currency_code : Option String
  completed_at : Option String
  region_id : Option String
  deriving Repr, DecidableEq

/-- A Medusa `StoreOrder`, restricted to its identifier. -/
structure StoreOrder where
  id : String
  deriving Repr, DecidableEq

/-- The nanostores cart state relevant to the verified claims:
the `$cart` atom, the `$cartLoading` atom, and durable storage. -/
structure CartStoreState where
  cart : Option StoreCart
  cartLoading : Bool
  storage : Storage
  deriving Repr, DecidableEq

/-- Model of `getStoredCartId()`: reads `CART_ID_KEY` from storage. -/
def getStoredCartId (s : Storage) : Option String :=
  Storage.getItem s CART_ID_KEY

/-- Model of `setStoredCartId(cartId)`: writes `CART_ID_KEY`. -/
def setStoredCartId (s : Storage) (cartId : String) : Storage :=
  Storage.setItem s CART_ID_KEY cartId

/-- Model of `removeStoredCartId()`: removes `CART_ID_KEY`. -/
def removeStoredCartId (s : Storage) : Storage :=
  Storage.removeItem s CART_ID_KEY

/-- Model of `setCart(cart)` from `stores/cart.ts`: sets the `$cart` atom,
and persists the cart id when `cart?.id` is truthy. -/
def setCart (st : CartStoreState) (cart : Option StoreCart) : CartStoreState :=
  let st1 : CartStoreState := { st with cart := cart }
  match cart with
  | some c =>
      if truthy (some c.id) then
        { st1 with storage := setStoredCartId st1.storage c.id }
      else st1
  | none => st1

/-- Model of `clearCart()` from `stores/cart.ts`: sets `$cart` to null and
removes the stored cart id. -/
def clearCart (st : CartStoreState) : CartStoreState :=
  { st with cart := none, storage := removeStoredCartId st.storage }

/-- Model of the `$cartCount` computed value: 0 when `cart?.items` is
falsy, otherwise the `reduce` of item quantities. -/
def cartCount (cart : Option StoreCart) : Int :=
  match cart with
  | none => 0
  | some c =>
      match c.items with
      | none => 0
      | some items => items.foldl (fun total item => total + item.quantity) 0

/-! ### Storage lemmas -/

theorem getItem_setItem (s : Storage) (k v : String) :
    Storage.getItem (Storage.setItem s k v) k = some v := by
  simp [Storage.getItem, Storage.setItem, List.find?]

theorem getItem_removeItem (s : Storage) (k : String) :
    Storage.getItem (Storage.removeItem s k) k = none := by
  unfold Storage.getItem Storage.removeItem
  induction s with
  | nil => rfl
  | cons hd tl ih =>
      by_cases h : hd.1 == k
      · simp [List.filter, h] at ih ⊢
        exact ih
      · simp only [List.filter, h, Bool.not_false]
        simp only [List.find?, h]
        exact ih

/-! ### C3: setCart persistence / clearCart removal -/

/-- C3. For every cart value with a non-empty identifier, `setCart` stores
that identifier in durable storage (and sets the snapshot); `setCart null`
sets the snapshot to null but leaves storage untouched; `setCart` never
removes a persisted identifier; `clearCart` sets the snapshot to null and
removes the persisted identifier. -/
theorem setCart_persists_clearCart_removes :
    (∀ (st : CartStoreState) (c : StoreCart), c.id ≠ "" →
      (setCart st (some c)).cart = some c ∧
      getStoredCartId (setCart st (some c)).storage = some c.id) ∧
    (∀ st : CartStoreState,
      (setCart st none).cart = none ∧ (setCart st none).storage = st.storage) ∧
    (∀ (st : CartStoreState) (c : Option StoreCart),
      getStoredCartId (setCart st c).storage = none →
      getStoredCartId st.storage = none) ∧
    (∀ st : CartStoreState,
      (clearCart st).cart = none ∧
      getStoredCartId (clearCart st).storage = none) := by
  refine ⟨?_, ?_, ?_, ?_⟩
  · intro st c hid
    constructor
    · simp [setCart, truthy, hid]
    · simp [setCart, truthy, hid, getStoredCartId, setStoredCartId,
        getItem_setItem]
  · intro st
    exact ⟨rfl, rfl⟩
  · intro st c h
    match c with
    | none => exact h
    | some cart =>
        by_cases hid : cart.id = ""
        · simpa [setCart, truthy, hid] using h
        · exfalso
          rw [show getStoredCartId (setCart st (some cart)).storage
              = some cart.id by
            simp [setCart, truthy, hid, getStoredCartId, setStoredCartId,
              getItem_setItem]] at h
          exact Option.noConfusion h
  · intro st
    exact ⟨rfl, by
      simp [clearCart, getStoredCartId, removeStoredCartId,
        getItem_removeItem]⟩

/-- C3 witness: concrete evaluation of the theorem at a one-item state. -/
theorem setCart_persists_clearCart_removes_witness :
    (setCart ⟨none, false, []⟩ (some ⟨"cart_01", none, none, none, none, none⟩)).cart
        = some ⟨"cart_01", none, none, none, none, none⟩ ∧
    getStoredCartId (setCart ⟨none, false, []⟩
        (some ⟨"cart_01", none, none, none, none, none⟩)).storage = some "cart_01" :=
  setCart_persists_clearCart_removes.1 ⟨none, false, []⟩
    ⟨"cart_01", none, none, none, none, none⟩ (by decide)

/-! ### C8: cart count equals sum of quantities -/

theorem foldl_add_quantity (l : List LineItem) (a : Int) :
    l.foldl (fun total item => total + item.quantity) a
      = a + (l.map (fun item => item.quantity)).sum := by
  induction l generalizing a with
  | nil => simp
  | cons hd tl ih =>
      simp only [List.foldl, List.map, List.sum_cons]
      rw [ih]
      ring

/-- C8. The derived item count equals the sum of the quantities of all
line items, and equals 0 when the cart is null or has no items list. -/
theorem cartCount_eq_sum_quantities :
    (∀ (c : StoreCart) (items : List LineItem), c.items = some items →
      cartCount (some c) = (items.map (fun item => item.quantity)).sum) ∧
    cartCount none = 0 ∧
    (∀ c : StoreCart, c.items = none → cartCount (some c) = 0) := by
  refine ⟨?_, rfl, ?_⟩
  · intro c items h
    simp only [cartCount, h]
    rw [foldl_add_quantity]
    ring
  · intro c h
    simp [cartCount, h]

/-- C8 witness: concrete two-item cart whose count is 2 + 3 = 5. -/
theorem cartCount_eq_sum_quantities_witness :
    cartCount (some ⟨"cart_05", some [⟨"li_1", "A", 2, 100⟩,
      ⟨"li_2", "B", 3, 200⟩], none, none, none, none⟩) = 5 := by
  have h := cartCount_eq_sum_quantities.1
    ⟨"cart_05", some [⟨"li_1", "A", 2, 100⟩, ⟨"li_2", "B", 3, 200⟩],
      none, none, none, none⟩
    [⟨"li_1", "A", 2, 100⟩, ⟨"li_2", "B", 3, 200⟩] rfl
  simpa using h

/-! ### initializeCart (C2, C6) -/

/-- Outcome of the `fetchCart` function supplied to `initializeCart`:
either the promise rejects (`fthrow`), or it resolves with
`{ cart: StoreCart } | null` (`fok (some c)` / `fok none`). -/
inductive FetchResult where
  | fthrow
  | fok (response : Option StoreCart)
  deriving Repr, DecidableEq

/-- Result of `initializeCart`: the final store state and the returned
value (the adopted cart or null). The function never rejects: every
fetch failure is caught and turned into a null return. -/
structure InitResult where
  state : CartStoreState
  ret : Option StoreCart
  deriving Repr, DecidableEq

/-- Model of `initializeCart(fetchCart)` from `stores/cart.ts`.
Reads the stored id (falsy id short-circuits), sets `$cartLoading`,
fetches, and: discards the stored id on a thrown fetch, a null response,
or a truthy `completed_at`; otherwise adopts the fetched cart by setting
the `$cart` atom directly. -/
def initializeCart (st : CartStoreState) (fetchCart : String → FetchResult) :
    InitResult :=
  match getStoredCartId st.storage with
  | none => ⟨st, none⟩
  | some storedCartId =>
      if storedCartId = "" then ⟨st, none⟩
      else
        let st1 : CartStoreState := { st with cartLoading := true }
        match fetchCart storedCartId with
        | .fthrow =>
            ⟨{ st1 with
                storage := removeStoredCartId st1.storage
                cartLoading := false }, none⟩
        | .fok none =>
            ⟨{ st1 with
                storage := removeStoredCartId st1.storage
                cartLoading := false }, none⟩
        | .fok (some cart) =>
            if truthy cart.completed_at then
              ⟨{ st1 with
                  storage := removeStoredCartId st1.storage
                  cartLoading := false }, none⟩
            else
              ⟨{ st1 with cart := some cart, cartLoading := false },
                some cart⟩

/-! ### C6: fetch failure or missing cart during initialization -/

/-- C6. When a persisted identifier exists and the supplied fetch throws
or returns no cart, `initializeCart` removes the persisted identifier,
returns null, and leaves the `$cart` atom untouched; the function
returns normally, surfacing no error. -/
theorem initializeCart_fetch_failure (st : CartStoreState)
    (fetchCart : String → FetchResult) (sid : String)
    (hstored : getStoredCartId st.storage = some sid) (hne : sid ≠ "")
    (hfail : fetchCart sid = .fthrow ∨ fetchCart sid = .fok none) :
    (initializeCart st fetchCart).ret = none ∧
    (initializeCart st fetchCart).state.cart = st.cart ∧
    getStoredCartId (initializeCart st fetchCart).state.storage = none := by
  have hstored' : Storage.getItem st.storage CART_ID_KEY = some sid := hstored
  unfold initializeCart
  rw [getStoredCartId, hstored']
  rcases hfail with hfail | hfail <;>
    simp [hne, hfail, getStoredCartId, removeStoredCartId,
      getItem_removeItem]

/-- C6 witness: concrete run with a stored id whose fetch throws. -/
theorem initializeCart_fetch_failure_witness :
    (initializeCart ⟨none, false, [(CART_ID_KEY, "cart_07")]⟩
        (fun _ => .fthrow)).ret = none ∧
    (initializeCart ⟨none, false, [(CART_ID_KEY, "cart_07")]⟩
        (fun _ => .fthrow)).state.cart = none ∧
    getStoredCartId (initializeCart ⟨none, false, [(CART_ID_KEY, "cart_07")]⟩
        (fun _ => .fthrow)).state.storage = none :=
  initializeCart_fetch_failure ⟨none, false, [(CART_ID_KEY, "cart_07")]⟩
    (fun _ => .fthrow) "cart_07" (by decide) (by decide) (Or.inl rfl)

/-! ### C2: completed cart during initialization -/

/-- C2 counterexample: the claim quantifies over carts with a non-null
`completed_at`, but the code tests JS truthiness, so a cart whose
`completed_at` is the empty string (non-null) is adopted and the
persisted identifier is kept, contradicting the claim at this input. -/
theorem initializeCart_completed_at_empty_counterexample :
    (⟨"cart_09", none, none, none, some "", none⟩ : StoreCart).completed_at ≠ none ∧
    (initializeCart ⟨none, false, [(CART_ID_KEY, "cart_09")]⟩
        (fun _ => .fok (some ⟨"cart_09", none, none, none, some "", none⟩))).ret
      = some ⟨"cart_09", none, none, none, some "", none⟩ ∧
    (initializeCart ⟨none, false, [(CART_ID_KEY, "cart_09")]⟩
        (fun _ => .fok (some ⟨"cart_09", none, none, none, some "", none⟩))).state.cart
      = some ⟨"cart_09", none, none, none, some "", none⟩ ∧
    getStoredCartId (initializeCart ⟨none, false, [(CART_ID_KEY, "cart_09")]⟩
        (fun _ => .fok (some ⟨"cart_09", none, none, none, some "", none⟩))).state.storage
      = some "cart_09" := by
  refine ⟨by decide, ?_, ?_, ?_⟩ <;> rfl

/-- C2 (amended). When a persisted identifier exists and its fetch
returns a cart whose `completed_at` is truthy (non-null and non-empty),
`initializeCart` adopts no cart (the `$cart` atom is untouched, null is
returned) and removes the persisted identifier. -/
theorem initializeCart_completed_cart_discarded (st : CartStoreState)
    (fetchCart : String → FetchResult) (sid : String) (c : StoreCart)
    (s : String) (hstored : getStoredCartId st.storage = some sid)
    (hne : sid ≠ "") (hfetch : fetchCart sid = .fok (some c))
    (hdone : c.completed_at = some s) (hs : s ≠ "") :
    (initializeCart st fetchCart).ret = none ∧
    (initializeCart st fetchCart).state.cart = st.cart ∧
    getStoredCartId (initializeCart st fetchCart).state.storage = none := by
  have hstored' : Storage.getItem st.storage CART_ID_KEY = some sid := hstored
  unfold initializeCart
  rw [getStoredCartId, hstored']
  simp [hne, hfetch, truthy, hdone, hs, getStoredCartId,
    removeStoredCartId, getItem_removeItem]

/-- C2 witness: concrete run with a completed (truthy timestamp) cart. -/
theorem initializeCart_completed_cart_discarded_witness :
    (initializeCart ⟨none, false, [(CART_ID_KEY, "cart_08")]⟩
        (fun _ => .fok (some ⟨"cart_08", none, none, none,
          some "2024-01-01", none⟩))).ret = none ∧
    (initializeCart ⟨none, false, [(CART_ID_KEY, "cart_08")]⟩
        (fun _ => .fok (some ⟨"cart_08", none, none, none,
          some "2024-01-01", none⟩))).state.cart = none ∧
    getStoredCartId (initializeCart ⟨none, false, [(CART_ID_KEY, "cart_08")]⟩
        (fun _ => .fok (some ⟨"cart_08", none, none, none,
          some "2024-01-01", none⟩))).state.storage = none :=
  initializeCart_completed_cart_discarded
    ⟨none, false, [(CART_ID_KEY, "cart_08")]⟩
    (fun _ => .fok (some ⟨"cart_08", none, none, none, some "2024-01-01", none⟩))
    "cart_08" ⟨"cart_08", none, none, none, some "2024-01-01", none⟩
    "2024-01-01" (by decide) (by decide) rfl rfl (by decide)

/-! ### PaymentForm.handlePlaceOrder (C1) -/

/-- Outcome of `completeCart(cartId)`: the promise rejects (`cthrow`), or
resolves with a response of type `"order"` carrying the order, or with a
response of type `"cart"` carrying a cart. -/
inductive CompleteResult where
  | cthrow
  | orderResp (order : StoreOrder)
  | cartResp (cart : StoreCart)
  deriving Repr, DecidableEq

/-- Local component state of `PaymentForm` that `handlePlaceOrder`
touches: the selected provider, the inline error, the processing flag. -/
structure PaymentFormState where
  selectedProvider : Option String
  error : Option String
  isProcessing : Bool
  deriving Repr, DecidableEq

/-- Result of `handlePlaceOrder`: the cart store state, the component
state, and the argument of the `onComplete` callback when it was
invoked (`none` when it was not). -/
structure PlaceOrderResult where
  store : CartStoreState
  form : PaymentFormState
  completedOrder : Option StoreOrder
  deriving Repr, DecidableEq

/-- Model of `handlePlaceOrder` from `PaymentForm`. The guard requires
`cart?.id` and `selectedProvider` to be truthy. On an order-typed
response it calls `setCart(null)`, then removes the literal localStorage
key `"cart_id"` (the string hard-coded at that call site, distinct from
`CART_ID_KEY`), and invokes `onComplete(order)`. A cart-typed response
or a rejection only sets the inline error. -/
def handlePlaceOrder (store : CartStoreState) (form : PaymentFormState)
    (completeCart : String → CompleteResult) : PlaceOrderResult :=
  match store.cart with
  | none => ⟨store, form, none⟩
  | some cart =>
      if cart.id = "" then ⟨store, form, none⟩
      else if !(truthy form.selectedProvider) then ⟨store, form, none⟩
      else
        let form1 : PaymentFormState := { form with isProcessing := true, error := none }
        match completeCart cart.id with
        | .orderResp order =>
            let store1 := setCart store none
            let store2 : CartStoreState :=
              { store1 with storage := Storage.removeItem store1.storage "cart_id" }
            ⟨store2, { form1 with isProcessing := false }, some order⟩
        | .cartResp _ =>
            ⟨store, { form1 with
                error := some "Payment incomplete. Please check details."
                isProcessing := false }, none⟩
        | .cthrow =>
            ⟨store, { form1 with
                error := some "Failed to place order. Please try again."
                isProcessing := false }, none⟩

/-- C1 (code bug exhibit). Evaluating `handlePlaceOrder` at a state with
the cart identifier persisted under `CART_ID_KEY` and an order-typed
completion response: the cart store is set to null and `onComplete`
receives the order, but the persisted identifier survives in durable
storage, because the code removes the literal key `"cart_id"` instead of
`CART_ID_KEY` (`"medusa_cart_id"`). -/
theorem handlePlaceOrder_keeps_persisted_id :
    (handlePlaceOrder
        ⟨some ⟨"cart_42", none, none, none, none, none⟩, false,
          [(CART_ID_KEY, "cart_42")]⟩
        ⟨some "pp_system_default", none, false⟩
        (fun _ => .orderResp ⟨"order_42"⟩)).store.cart = none ∧
    (handlePlaceOrder
        ⟨some ⟨"cart_42", none, none, none, none, none⟩, false,
          [(CART_ID_KEY, "cart_42")]⟩
        ⟨some "pp_system_default", none, false⟩
        (fun _ => .orderResp ⟨"order_42"⟩)).completedOrder = some ⟨"order_42"⟩ ∧
    getStoredCartId (handlePlaceOrder
        ⟨some ⟨"cart_42", none, none, none, none, none⟩, false,
          [(CART_ID_KEY, "cart_42")]⟩
        ⟨some "pp_system_default", none, false⟩
        (fun _ => .orderResp ⟨"order_42"⟩)).store.storage = some "cart_42" := by
  refine ⟨rfl, rfl, rfl⟩

/-- C1 (error paths, verified part). For a truthy cart id and selected
provider, a cart-typed response or a rejection from `completeCart` only
sets the inline error: the cart snapshot, durable storage, and the
selected provider are unchanged, and `onComplete` is not invoked. -/
theorem handlePlaceOrder_non_order_inline_error (store : CartStoreState)
    (form : PaymentFormState) (completeCart : String → CompleteResult)
    (cart : StoreCart) (hcart : store.cart = some cart) (hid : cart.id ≠ "")
    (hprov : truthy form.selectedProvider = true)
    (hresp : completeCart cart.id = .cthrow ∨
      ∃ c, completeCart cart.id = .cartResp c) :
    (handlePlaceOrder store form completeCart).store = store ∧
    (handlePlaceOrder store form completeCart).form.selectedProvider
      = form.selectedProvider ∧
    (handlePlaceOrder store form completeCart).form.error ≠ none ∧
    (handlePlaceOrder store form completeCart).completedOrder = none := by
  unfold handlePlaceOrder
  rcases hresp with hresp | ⟨c, hresp⟩ <;>
    simp [hcart, hid, hprov, hresp]

/-- C1 error-path witness: concrete evaluation with a rejecting
completion call. -/
theorem handlePlaceOrder_non_order_inline_error_witness :
    (handlePlaceOrder
        ⟨some ⟨"cart_43", none, none, none, none, none⟩, false, []⟩
        ⟨some "pp_system_default", none, false⟩
        (fun _ => .cthrow)).store
      = ⟨some ⟨"cart_43", none, none, none, none, none⟩, false, []⟩ ∧
    (handlePlaceOrder
        ⟨some ⟨"cart_43", none, none, none, none, none⟩, false, []⟩
        ⟨some "pp_system_default", none, false⟩
        (fun _ => .cthrow)).form.selectedProvider = some "pp_system_default" ∧
    (handlePlaceOrder
        ⟨some ⟨"cart_43", none, none, none, none, none⟩, false, []⟩
        ⟨some "pp_system_default", none, false⟩
        (fun _ => .cthrow)).form.error ≠ none ∧
    (handlePlaceOrder
        ⟨some ⟨"cart_43", none, none, none, none, none⟩, false, []⟩
        ⟨some "pp_system_default", none, false⟩
        (fun _ => .cthrow)).completedOrder = none :=
  handlePlaceOrder_non_order_inline_error
    ⟨some ⟨"cart_43", none, none, none, none, none⟩, false, []⟩
    ⟨some "pp_system_default", none, false⟩ (fun _ => .cthrow)
    ⟨"cart_43", none, none, none, none, none⟩ rfl (by decide) (by decide)
    (Or.inl rfl)

/-! ### Cart.handleUpdateQuantity (C4) -/

/-- Backend requests the cart island can issue:
`removeLineItem`, `updateLineItem` (with the requested quantity), and
`getCart` (the re-fetch after a deletion). -/
inductive CartRequest where
  | removeLineItemReq (cartId lineItemId : String)
  | updateLineItemReq (cartId lineItemId : String) (quantity : Int)
  | getCartReq (cartId : String)
  deriving Repr, DecidableEq

/-- Outcome of a backend call made by the cart island: rejection, or a
response carrying a cart (for the deletion request, whose response body
the code ignores, the carried cart models the ignored payload). -/
inductive CartApiResult where
  | failure
  | success (cart : StoreCart)
  deriving Repr, DecidableEq

/-- Result of `handleUpdateQuantity`: cart store state, inline error,
screen-reader announcement, and the backend requests issued in order. -/
structure UpdateQuantityResult where
  store : CartStoreState
  error : Option String
  announcement : Option String
  requests : List CartRequest
  deriving Repr, DecidableEq

/-- The announcement title for a line item: `item?.title || "Item"`. -/
def announcementTitle (items : Option (List LineItem)) (lineItemId : String) :
    String :=
  match (items.getD []).find? (fun i => i.id == lineItemId) with
  | some item => if item.title = "" then "Item" else item.title
  | none => "Item"

/-- Model of `handleUpdateQuantity(lineItemId, newQuantity)` from
`Cart.tsx`. Requires a truthy `cart?.id`. When the new quantity is 0 it
issues a line-item deletion followed by a cart re-fetch; otherwise it
issues a quantity update. On success the whole cart snapshot is replaced
via `setCart` and a change is announced; on failure an inline error is
set and the store is untouched. -/
def handleUpdateQuantity (store : CartStoreState) (lineItemId : String)
    (newQuantity : Int) (api : CartRequest → CartApiResult) :
    UpdateQuantityResult :=
  match store.cart with
  | none => ⟨store, none, none, []⟩
  | some cart =>
      if cart.id = "" then ⟨store, none, none, []⟩
      else
        let itemTitle := announcementTitle cart.items lineItemId
        if newQuantity = 0 then
          let req1 := CartRequest.removeLineItemReq cart.id lineItemId
          match api req1 with
          | .failure =>
              ⟨store, some "Failed to update item. Please try again.", none, [req1]⟩
          | .success _ =>
              let req2 := CartRequest.getCartReq cart.id
              match api req2 with
              | .failure =>
                  ⟨store, some "Failed to update item. Please try again.", none,
                    [req1, req2]⟩
              | .success updatedCart =>
                  ⟨setCart store (some updatedCart), none,
                    some ("Removed " ++ itemTitle ++ " from cart"),
                    [req1, req2]⟩
        else
          let req := CartRequest.updateLineItemReq cart.id lineItemId newQuantity
          match api req with
          | .failure =>
              ⟨store, some "Failed to update item. Please try again.", none, [req]⟩
          | .success updatedCart =>
              ⟨setCart store (some updatedCart), none,
                some ("Updated quantity for " ++ itemTitle ++ " to "
                  ++ toString newQuantity), [req]⟩

/-- C4. For a truthy cart id, requesting quantity 0 issues the line-item
deletion as its first backend call, every call issued on that path is
the deletion or the re-fetch (never a quantity update), and for every
requested quantity no zero-quantity update request is ever issued. -/
theorem updateQuantity_zero_deletes (store : CartStoreState)
    (lineItemId : String) (cart : StoreCart)
    (hcart : store.cart = some cart) (hid : cart.id ≠ "") :
    (∀ api : CartRequest → CartApiResult,
      (handleUpdateQuantity store lineItemId 0 api).requests.head?
        = some (CartRequest.removeLineItemReq cart.id lineItemId) ∧
      ∀ r ∈ (handleUpdateQuantity store lineItemId 0 api).requests,
        r = CartRequest.removeLineItemReq cart.id lineItemId ∨
        r = CartRequest.getCartReq cart.id) ∧
    (∀ (n : Int) (api : CartRequest → CartApiResult) (cid iid : String),
      CartRequest.updateLineItemReq cid iid 0
        ∉ (handleUpdateQuantity store lineItemId n api).requests) := by
  constructor
  · intro api
    unfold handleUpdateQuantity
    rcases h1 : api (CartRequest.removeLineItemReq cart.id lineItemId) with _ | c1
    · simp [hcart, hid, h1]
    · rcases h2 : api (CartRequest.getCartReq cart.id) with _ | c2 <;>
        simp [hcart, hid, h1, h2]
  · intro n api cid iid
    unfold handleUpdateQuantity
    by_cases hn : n = 0
    · subst hn
      rcases h1 : api (CartRequest.removeLineItemReq cart.id lineItemId) with _ | c1
      · simp [hcart, hid, h1]
      · rcases h2 : api (CartRequest.getCartReq cart.id) with _ | c2 <;>
          simp [hcart, hid, h1, h2]
    · rcases h1 : api (CartRequest.updateLineItemReq cart.id lineItemId n) with _ | c1 <;>
        simp [hcart, hid, hn, h1] <;>
        exact fun _ _ h => hn h.symm

/-- C4 witness: concrete evaluation with a one-item cart whose quantity
is moved to 0 against an always-succeeding backend. -/
theorem updateQuantity_zero_deletes_witness :
    (handleUpdateQuantity
        ⟨some ⟨"cart_11", some [⟨"li_1", "Shirt", 1, 1000⟩], none, none,
          none, none⟩, false, []⟩
        "li_1" 0
        (fun _ => .success ⟨"cart_11", some [], none, none, none, none⟩)).requests.head?
      = some (CartRequest.removeLineItemReq "cart_11" "li_1") ∧
    CartRequest.updateLineItemReq "cart_11" "li_1" 0
      ∉ (handleUpdateQuantity
        ⟨some ⟨"cart_11", some [⟨"li_1", "Shirt", 1, 1000⟩], none, none,
          none, none⟩, false, []⟩
        "li_1" 0
        (fun _ => .success ⟨"cart_11", some [], none, none, none, none⟩)).requests := by
  have h := updateQuantity_zero_deletes
    ⟨some ⟨"cart_11", some [⟨"li_1", "Shirt", 1, 1000⟩], none, none, none, none⟩,
      false, []⟩
    "li_1" ⟨"cart_11", some [⟨"li_1", "Shirt", 1, 1000⟩], none, none, none, none⟩
    rfl (by decide)
  exact ⟨(h.1 (fun _ => .success ⟨"cart_11", some [], none, none, none, none⟩)).1,
    h.2 0 (fun _ => .success ⟨"cart_11", some [], none, none, none, none⟩)
      "cart_11" "li_1"⟩

/-! ### ShippingMethodSelector.handleSelectOption (C7) -/

/-- Outcome of `addShippingMethod(cartId, { option_id })`. -/
inductive ShipApiResult where
  | failure
  | success (cart : StoreCart)
  deriving Repr, DecidableEq

/-- Local component state of `ShippingMethodSelector` touched by
`handleSelectOption`. -/
structure ShippingSelectorState where
  selectedOption : Option String
  error : Option String
  isSaving : Bool
  deriving Repr, DecidableEq

/-- Result of `handleSelectOption`: store state, component state, whether
`onComplete` was invoked, and the `addShippingMethod` requests issued as
`(cartId, optionId)` pairs. -/
structure SelectOptionResult where
  store : CartStoreState
  ui : ShippingSelectorState
  completeCalled : Bool
  requests : List (String × String)
  deriving Repr, DecidableEq

/-- Model of `handleSelectOption(optionId)` from
`ShippingMethodSelector.tsx`. Requires a truthy `cart?.id`; marks the
option selected and submits it; on success replaces the cart snapshot
via `setCart` and calls `onComplete`; on failure sets the inline error
and reverts the visible selection to null. -/
def handleSelectOption (store : CartStoreState) (ui : ShippingSelectorState)
    (optionId : String) (api : String × String → ShipApiResult) :
    SelectOptionResult :=
  match store.cart with
  | none => ⟨store, ui, false, []⟩
  | some cart =>
      if cart.id = "" then ⟨store, ui, false, []⟩
      else
        let ui1 : ShippingSelectorState :=
          { ui with
              selectedOption := some optionId
              isSaving := true
              error := none }
        match api (cart.id, optionId) with
        | .success updatedCart =>
            ⟨setCart store (some updatedCart), { ui1 with isSaving := false },
              true, [(cart.id, optionId)]⟩
        | .failure =>
            ⟨store, { ui1 with
                error := some "Failed to set shipping method. Please try again."
                selectedOption := none
                isSaving := false }, false, [(cart.id, optionId)]⟩

/-- C7. For a truthy cart id, selecting a shipping option submits exactly
one backend request for that option; on success the whole cart snapshot
is replaced with the returned cart and `onComplete` fires; on failure
the visible selection is reverted to null, an error message is set, the
store is untouched, and no further request is issued (no retry). -/
theorem selectOption_submits_and_reverts (store : CartStoreState)
    (ui : ShippingSelectorState) (optionId : String) (cart : StoreCart)
    (api : String × String → ShipApiResult)
    (hcart : store.cart = some cart) (hid : cart.id ≠ "") :
    (handleSelectOption store ui optionId api).requests
      = [(cart.id, optionId)] ∧
    (∀ updatedCart, api (cart.id, optionId) = .success updatedCart →
      (handleSelectOption store ui optionId api).store.cart = some updatedCart ∧
      (handleSelectOption store ui optionId api).completeCalled = true) ∧
    (api (cart.id, optionId) = .failure →
      (handleSelectOption store ui optionId api).ui.selectedOption = none ∧
      (handleSelectOption store ui optionId api).ui.error
        = some "Failed to set shipping method. Please try again." ∧
      (handleSelectOption store ui optionId api).store = store ∧
      (handleSelectOption store ui optionId api).completeCalled = false) := by
  refine ⟨?_, ?_, ?_⟩
  · unfold handleSelectOption
    rcases h : api (cart.id, optionId) with _ | c <;> simp [hcart, hid, h]
  · intro updatedCart h
    unfold handleSelectOption
    by_cases hu : updatedCart.id = "" <;>
      simp [hcart, hid, h, setCart, truthy, hu]
  · intro h
    unfold handleSelectOption
    simp [hcart, hid, h]

/-- C7 witness: concrete evaluation of the failure branch. -/
theorem selectOption_submits_and_reverts_witness :
    (handleSelectOption
        ⟨some ⟨"cart_21", none, none, none, none, none⟩, false, []⟩
        ⟨none, none, false⟩ "so_standard" (fun _ => .failure)).requests
      = [("cart_21", "so_standard")] ∧
    (handleSelectOption
        ⟨some ⟨"cart_21", none, none, none, none, none⟩, false, []⟩
        ⟨none, none, false⟩ "so_standard" (fun _ => .failure)).ui.selectedOption
      = none ∧
    (handleSelectOption
        ⟨some ⟨"cart_21", none, none, none, none, none⟩, false, []⟩
        ⟨none, none, false⟩ "so_standard" (fun _ => .failure)).ui.error
      = some "Failed to set shipping method. Please try again." := by
  have h := selectOption_submits_and_reverts
    ⟨some ⟨"cart_21", none, none, none, none, none⟩, false, []⟩
    ⟨none, none, false⟩ "so_standard" ⟨"cart_21", none, none, none, none, none⟩
    (fun _ => .failure) rfl (by decide)
  exact ⟨h.1, (h.2.2 rfl).1, (h.2.2 rfl).2.1⟩

/-! ### CheckoutForm validation and submission (C5) -/

/-- Model of JS `String.prototype.toUpperCase` restricted to per-character
uppercasing (the verified code only ever applies it to ASCII currency
codes). -/
def toUpperCase (s : String) : String := String.mk (s.data.map Char.toUpper)

/-- Model of JS `String.prototype.trim`: strips leading and trailing
whitespace characters. -/
def jsTrim (s : String) : String :=
  String.mk
    (((s.data.dropWhile Char.isWhitespace).reverse.dropWhile
      Char.isWhitespace).reverse)

/-- Splits a character list at every character satisfying `p` (the
separator-dropping split used to locate the `@` signs of a candidate
email address); the accumulator carries the current segment reversed. -/
def splitChars (p : Char → Bool) : List Char → List Char → List (List Char)
  | [], acc => [acc.reverse]
  | c :: rest, acc =>
      if p c then acc.reverse :: splitChars p rest []
      else splitChars p rest (c :: acc)

/-- Model of the email pattern from `validateForm`:
the regular expression `[^\s@]+@[^\s@]+[.][^\s@]+` anchored at both ends.
A string matches iff it splits at a unique `@` into a non-empty local
part and a domain part, both free of whitespace (`@`-freeness is forced
by the split), where the domain part contains a dot that is neither its
first nor its last character. -/
def emailMatches (s : String) : Bool :=
  match splitChars (fun c => c == '@') s.data [] with
  | [localPart, domainPart] =>
      !(localPart.isEmpty) &&
      localPart.all (fun c => !c.isWhitespace) &&
      domainPart.all (fun c => !c.isWhitespace) &&
      ((domainPart.drop 1).dropLast.contains '.')
  | _ => false

/-- The `formData` fields of `CheckoutForm`. -/
structure FormData where
  email : String
  firstName : String
  lastName : String
  address : String
  apartment : String
  city : String
  postalCode : String
  country : String
  phone : String
  deriving Repr, DecidableEq

/-- Model of `validateForm` from `CheckoutForm`: the field-scoped errors
it records, in source order. Validation passes iff the list is empty. -/
def validateForm (f : FormData) : List (String × String) :=
  (if jsTrim f.email = "" then [("email", "Email is required")]
   else if !(emailMatches f.email) then
     [("email", "Please enter a valid email")]
   else []) ++
  (if jsTrim f.firstName = "" then [("firstName", "First name is required")]
   else []) ++
  (if jsTrim f.lastName = "" then [("lastName", "Last name is required")]
   else []) ++
  (if jsTrim f.address = "" then [("address", "Address is required")] else []) ++
  (if jsTrim f.city = "" then [("city", "City is required")] else []) ++
  (if jsTrim f.postalCode = "" then [("postalCode", "Postal code is required")]
   else []) ++
  (if jsTrim f.country = "" then [("country", "Country is required")] else [])

/-- The shipping-address payload `handleSubmit` sends to `updateCart`. -/
structure AddressPayload where
  email : String
  first_name : String
  last_name : String
  address_1 : String
  address_2 : Option String
  city : String
  postal_code : String
  country_code : String
  phone : Option String
  deriving Repr, DecidableEq

/-- Outcome of `handleSubmit` from `CheckoutForm`: blocked by field
validation, blocked by a missing cart, or submitted to the backend
`updateCart` call with the given cart id and payload. -/
inductive SubmitOutcome where
  | blockedValidation (errors : List (String × String))
  | blockedNoCart
  | submitted (cartId : String) (payload : AddressPayload)
  deriving Repr, DecidableEq

/-- Model of `handleSubmit` from `CheckoutForm` up to the backend call:
validation failures block submission; a falsy `cart?.id` sets the
top-level error; otherwise the address update request is issued
(`formData.apartment || undefined` and `formData.phone || undefined`
drop empty optional fields). -/
def handleSubmit (cart : Option StoreCart) (f : FormData) : SubmitOutcome :=
  if validateForm f = [] then
    match cart with
    | none => .blockedNoCart
    | some c =>
        if c.id = "" then .blockedNoCart
        else
          .submitted c.id
            ⟨f.email, f.firstName, f.lastName, f.address,
              (if f.apartment = "" then none else some f.apartment),
              f.city, f.postalCode, f.country,
              (if f.phone = "" then none else some f.phone)⟩
  else .blockedValidation (validateForm f)

/-- C5. Checkout address validation: an empty or whitespace-only email
records the error message `Email is required` for the email field; a
non-empty email rejected by the pattern (such as `foo`, shown
concretely) records the format error; when the email matches and all
required fields are non-empty, validation records no errors and
submission for a cart with a non-empty id proceeds to the backend
update call with the form's payload. -/
theorem checkout_validation_spec :
    (∀ f : FormData, jsTrim f.email = "" →
      (validateForm f).lookup "email" = some "Email is required") ∧
    (∀ f : FormData, jsTrim f.email ≠ "" → emailMatches f.email = false →
      (validateForm f).lookup "email" = some "Please enter a valid email") ∧
    emailMatches "foo" = false ∧
    (∀ (f : FormData) (c : StoreCart),
      jsTrim f.email ≠ "" → emailMatches f.email = true →
      jsTrim f.firstName ≠ "" → jsTrim f.lastName ≠ "" → jsTrim f.address ≠ "" →
      jsTrim f.city ≠ "" → jsTrim f.postalCode ≠ "" → jsTrim f.country ≠ "" →
      c.id ≠ "" →
      validateForm f = [] ∧
      handleSubmit (some c) f
        = .submitted c.id
            ⟨f.email, f.firstName, f.lastName, f.address,
              (if f.apartment = "" then none else some f.apartment),
              f.city, f.postalCode, f.country,
              (if f.phone = "" then none else some f.phone)⟩) := by
  refine ⟨?_, ?_, by decide, ?_⟩
  · intro f hE
    simp [validateForm, hE, List.lookup]
  · intro f hE hM
    simp [validateForm, hE, hM, List.lookup]
  · intro f c hE hM h1 h2 h3 h4 h5 h6 hc
    have hv : validateForm f = [] := by
      simp [validateForm, hE, hM, h1, h2, h3, h4, h5, h6]
    exact ⟨hv, by simp [handleSubmit, hv, hc]⟩

/-- C5 witness: concrete evaluations of all three validation branches. -/
theorem checkout_validation_spec_witness :
    (validateForm ⟨"   ", "Jane", "Doe", "1 Main St", "", "Springfield",
        "12345", "us", ""⟩).lookup "email" = some "Email is required" ∧
    (validateForm ⟨"foo", "Jane", "Doe", "1 Main St", "", "Springfield",
        "12345", "us", ""⟩).lookup "email" = some "Please enter a valid email" ∧
    handleSubmit (some ⟨"cart_31", none, none, none, none, none⟩)
        ⟨"jane@example.com", "Jane", "Doe", "1 Main St", "", "Springfield",
          "12345", "us", ""⟩
      = .submitted "cart_31"
          ⟨"jane@example.com", "Jane", "Doe", "1 Main St", none,
            "Springfield", "12345", "us", none⟩ := by
  refine ⟨?_, ?_, ?_⟩
  · exact checkout_validation_spec.1
      ⟨"   ", "Jane", "Doe", "1 Main St", "", "Springfield", "12345", "us", ""⟩
      (by decide)
  · exact checkout_validation_spec.2.1
      ⟨"foo", "Jane", "Doe", "1 Main St", "", "Springfield", "12345", "us", ""⟩
      (by decide) (by decide)
  · have h := (checkout_validation_spec.2.2.2
      ⟨"jane@example.com", "Jane", "Doe", "1 Main St", "", "Springfield",
        "12345", "us", ""⟩
      ⟨"cart_31", none, none, none, none, none⟩
      (by decide) (by decide) (by decide) (by decide) (by decide) (by decide)
      (by decide) (by decide) (by decide)).2
    simpa using h

/-! ### Search debounce (C9) -/

/-- Model of the Search island's debounce effect. The input is the
timeline of query values, as `(time in ms, value)` pairs with strictly
increasing times: each change of `query` re-runs the effect, whose
cleanup cancels the pending 300 ms timer and which schedules a fresh
one. A timer fires iff no further keystroke occurs strictly within
300 ms; a fired timer issues a backend product query exactly when the
trimmed value is non-empty. The returned list is the sequence of issued
query strings. -/
def debouncedQueries : List (Nat × String) → List String
  | [] => []
  | [(_, q)] => if jsTrim q = "" then [] else [q]
  | (t1, q1) :: (t2, q2) :: rest =>
      (if t2 < t1 + 300 then []
       else if jsTrim q1 = "" then [] else [q1])
        ++ debouncedQueries ((t2, q2) :: rest)

/-- C9. A keystroke superseded strictly within 300 ms never issues a
query: typing a value and, within 300 ms, a second non-empty value
issues exactly one backend query, for the second value; in general a
superseded keystroke contributes nothing to the issued queries of any
timeline extending it. -/
theorem search_debounce_single_query (t1 t2 : Nat) (q1 q2 : String)
    (hlt : t2 < t1 + 300) (hq : jsTrim q2 ≠ "") :
    debouncedQueries [(t1, q1), (t2, q2)] = [q2] ∧
    ∀ (q : String) (rest : List (Nat × String)),
      debouncedQueries ((t1, q) :: (t2, q2) :: rest)
        = debouncedQueries ((t2, q2) :: rest) := by
  constructor
  · simp [debouncedQueries, hlt, hq]
  · intro q rest
    simp [debouncedQueries, hlt]

/-- C9 witness: the keystrokes `shirt` at 0 ms and `shirts` at 100 ms
issue exactly the single query `shirts`. -/
theorem search_debounce_single_query_witness :
    debouncedQueries [(0, "shirt"), (100, "shirts")] = ["shirts"] :=
  (search_debounce_single_query 0 100 "shirt" "shirts" (by decide)
    (by decide)).1

/-! ### formatPrice (C10) -/

/-- Model of `formatPrice` from the pricing helper. `Intl.NumberFormat`
is abstracted as the formatting parameter `nf`, applied to the resolved
currency and to the amount divided by 100 (embedded over `ℚ`);
`undefined` and `null` amounts both map to `none`. -/
def formatPrice (nf : String → ℚ → String) (amount : Option ℚ)
    (currencyCode : Option String) : Option String :=
  match amount with
  | none => none
  | some a =>
      let currency :=
        match currencyCode with
        | none => "USD"
        | some c => if toUpperCase c = "" then "USD" else toUpperCase c
      some (nf currency (a / 100))

theorem toUpperCase_ne_empty (c : String) (h : c ≠ "") : toUpperCase c ≠ "" := by
  intro he
  apply h
  have h2 : c.data.map Char.toUpper = [] := by
    have := congrArg String.data he
    simpa [toUpperCase] using this
  have hd : c.data = [] := by simpa using h2
  cases c with
  | mk l => cases hd; rfl

/-- C10. `formatPrice` returns null iff the amount is missing; for every
amount it applies the currency formatter to the amount divided by 100,
with the uppercased currency code, defaulting to USD when the code is
missing or empty. -/
theorem formatPrice_spec :
    (∀ (nf : String → ℚ → String) (amount : Option ℚ)
        (code : Option String),
      formatPrice nf amount code = none ↔ amount = none) ∧
    (∀ (nf : String → ℚ → String) (a : ℚ),
      formatPrice nf (some a) none = some (nf "USD" (a / 100))) ∧
    (∀ (nf : String → ℚ → String) (a : ℚ),
      formatPrice nf (some a) (some "") = some (nf "USD" (a / 100))) ∧
    (∀ (nf : String → ℚ → String) (a : ℚ) (c : String), c ≠ "" →
      formatPrice nf (some a) (some c)
        = some (nf (toUpperCase c) (a / 100))) := by
  refine ⟨?_, ?_, ?_, ?_⟩
  · intro nf amount code
    cases amount <;> simp [formatPrice]
  · intro nf a
    rfl
  · intro nf a
    rfl
  · intro nf a c hc
    simp [formatPrice, toUpperCase_ne_empty c hc]

/-- C10 witness: concrete evaluation with a projection formatter,
a 500-cent amount and the code `usd`. -/
theorem formatPrice_spec_witness :
    formatPrice (fun currency _ => currency) (some 500) (some "usd")
      = some "USD" := by
  have h := formatPrice_spec.2.2.2 (fun currency _ => currency) 500 "usd"
    (by decide)
  simpa [show toUpperCase "usd" = "USD" from rfl] using h

end Storefront
